import Mathlib

/-!
Verification development for the blog-to-tweet converter.

The repository exposes a Vercel serverless endpoint (`src/api/generate.js`,
which contains several concatenated revisions of the same handler file,
separated by document markers) and a React client (`src/unnamed/part_000`)
whose `generateThread` drives the thread / image pipeline from the browser.

The code is shallowly embedded: every outbound HTTP call is modelled by
passing the (parsed) upstream response in as an explicit argument, and each
handler returns both the HTTP result it would send and the ordered list of
upstream calls it performed.  Prompt strings do not influence any control
flow (the upstream response is a free input), so prompt construction is not
re-modelled; all validation, branching, and error-message logic is.

Naming of the revisions of `src/api/generate.js`, in file order:
  v1 = first revision   (coarse error handling, Gemini image backend),
  v2 = second revision  (granular errors, 404 on failed extraction),
  v3 = third revision   (Perplexity image backend, extraction sentinel
                          fallback on non-JSON bodies, throws on failed
                          extraction),
  v4 = fourth revision  (Imagen image backend; its `callImagenAPI` is the
                          only part a claim touches).
-/

/-- JS truthiness of an optional string (`undefined`/`null`/`""` are falsy). -/
def jsTruthy (v : Option String) : Bool :=
  match v with
  | some s => s ≠ ""
  | none => false

/-- JS `a || b` for an optional string `a` with default `b`
(`undefined` and `""` both fall through to the default). -/
def jsOrElse (v : Option String) (d : String) : String :=
  match v with
  | some s => if s = "" then d else s
  | none => d

/-- JS `String.prototype.trim()`: strip whitespace from both ends.  Defined
by structural recursion over the character list so that the kernel can
evaluate it (Lean's own `String.trim` reduces poorly in the kernel). -/
def jsTrim (s : String) : String :=
  ⟨((s.data.dropWhile Char.isWhitespace).reverse.dropWhile
      Char.isWhitespace).reverse⟩

/-- `result.candidates?.[0]?.content?.parts?.[0]?.text` under JS truthiness:
a missing or empty text field behaves as absent. -/
def getCandidateText (t : Option String) : Option String :=
  match t with
  | some s => if s = "" then none else some s
  | none => none

/-- Parsed shape of one Gemini text-model HTTP response, as the wrappers
consume it.  `bodyIsJson = false` models a body `response.json()` cannot
parse; `candidateText` is `result.candidates?.[0]?.content?.parts?.[0]?.text`
(`none` when any link of that chain is missing); `errorMessage` is
`result.error?.message`. -/
structure GeminiResponse where
  bodyIsJson : Bool
  ok : Bool
  status : Nat
  errorMessage : Option String
  candidateText : Option String
deriving DecidableEq

/-- Result object `{ text }` of a successful text-model call. -/
structure GeminiTextResult where
  text : String
deriving DecidableEq

/-- Message of the runtime exception thrown when `response.json()` fails and
the source does not catch it (v1 text wrapper, v1/v2 image wrapper, Imagen
wrapper).  The exact SyntaxError text is environment-defined; only its
distinctness matters here. -/
def jsonParseExceptionMessage : String :=
  "SyntaxError: response body is not valid JSON"

/-- `callGeminiAPI` of revision v1 (first revision of `src/api/generate.js`):
`const result = await response.json();` (an unparseable body throws), then
`if (!response.ok || !result.candidates?.[0]?.content?.parts?.[0]?.text)
 throw new Error("Gemini API call failed.");`. -/
def callGeminiAPI_v1 (r : GeminiResponse) : Except String GeminiTextResult :=
  if !r.bodyIsJson then .error jsonParseExceptionMessage
  else if !r.ok then .error "Gemini API call failed."
  else
    match getCandidateText r.candidateText with
    | none => .error "Gemini API call failed."
    | some t => .ok { text := t }

/-- `callGeminiAPI` of revision v2: a non-JSON body throws a dedicated
transport error; a non-ok status throws `result.error?.message` or a
status-derived message; an ok response without candidate text throws
`"Gemini API call failed: No content returned."`. -/
def callGeminiAPI_v2 (r : GeminiResponse) : Except String GeminiTextResult :=
  if !r.bodyIsJson then
    .error "Gemini API call failed. Received a non-JSON response."
  else if !r.ok then
    .error (jsOrElse r.errorMessage
      ("API request failed with status: " ++ toString r.status))
  else
    match getCandidateText r.candidateText with
    | none => .error "Gemini API call failed: No content returned."
    | some t => .ok { text := t }

/-- `callGeminiAPI` of revision v3: same as v2 except that a non-JSON body
degrades to the sentinel result `{ text: "Content not found" }` when
`isContentExtraction` is set, instead of throwing. -/
def callGeminiAPI_v3 (isContentExtraction : Bool) (r : GeminiResponse) :
    Except String GeminiTextResult :=
  if !r.bodyIsJson then
    if isContentExtraction then .ok { text := "Content not found" }
    else .error "Failed to parse JSON response. Received a non-JSON response."
  else if !r.ok then
    .error (jsOrElse r.errorMessage
      ("API request failed with status: " ++ toString r.status))
  else
    match getCandidateText r.candidateText with
    | none => .error "Gemini API call failed: No content returned."
    | some t => .ok { text := t }

/-- Parsed shape of a Gemini image-model response:
`inlineDataBase64` is the `data` field of the first part carrying
`inlineData`, when present. -/
structure GeminiImageResponse where
  bodyIsJson : Bool
  inlineDataBase64 : Option String
deriving DecidableEq

/-- `callGeminiImageAPI` of revisions v1/v2: `response.json()` throws on a
non-JSON body; a missing/empty base64 payload throws; otherwise the data URI
`data:image/png;base64,<payload>` is returned. -/
def callGeminiImageAPI (r : GeminiImageResponse) : Except String String :=
  if !r.bodyIsJson then .error jsonParseExceptionMessage
  else
    match getCandidateText r.inlineDataBase64 with
    | none => .error "Gemini Image API call failed. Check server logs for details."
    | some b => .ok ("data:image/png;base64," ++ b)

/-- One element of `result.predictions` of an Imagen response. -/
structure ImagenPrediction where
  bytesBase64Encoded : Option String
deriving DecidableEq

/-- Parsed shape of an Imagen (`imagen-3.0-generate-002:predict`) response. -/
structure ImagenResponse where
  bodyIsJson : Bool
  ok : Bool
  predictions : Option (List ImagenPrediction)
deriving DecidableEq

/-- `callImagenAPI` of revision v4: `response.json()` throws on a non-JSON
body; `!response.ok || !result.predictions || result.predictions.length === 0
|| !result.predictions[0].bytesBase64Encoded` throws; otherwise the data URI
`data:image/png;base64,<payload>` is returned. -/
def callImagenAPI (r : ImagenResponse) : Except String String :=
  if !r.bodyIsJson then .error jsonParseExceptionMessage
  else if !r.ok then
    .error "Imagen API call failed. Check server logs for details."
  else
    match r.predictions with
    | none => .error "Imagen API call failed. Check server logs for details."
    | some [] => .error "Imagen API call failed. Check server logs for details."
    | some (p :: _) =>
      match getCandidateText p.bytesBase64Encoded with
      | none => .error "Imagen API call failed. Check server logs for details."
      | some b => .ok ("data:image/png;base64," ++ b)

/-- Parsed shape of a Perplexity image-API response.  On a non-ok status the
source re-reads the body as JSON or raw text to extract a message, modelled
by `errorMessage`; on an ok status `url` is `result.url`. -/
structure PplxResponse where
  ok : Bool
  bodyIsJson : Bool
  errorMessage : Option String
  url : Option String
deriving DecidableEq

/-- `callPerplexityImageAPI` of revision v3: on a non-ok status it throws
`error.message || "Perplexity image API failed"`; on success it requires
`result.url` and returns that upstream URL verbatim (not a data URI). -/
def callPerplexityImageAPI (r : PplxResponse) : Except String String :=
  if !r.ok then .error (jsOrElse r.errorMessage "Perplexity image API failed")
  else if !r.bodyIsJson then .error jsonParseExceptionMessage
  else
    match getCandidateText r.url with
    | none => .error "Perplexity API response missing image URL."
    | some u => .ok u

/-- Body of the JSON response the handler sends back. -/
inductive ResponseBody where
  | textPayload (text : String)
  | imagePayload (imageUrl : String)
  | errorPayload (message : String)
deriving DecidableEq

/-- HTTP result of one handler invocation. -/
structure HttpResult where
  status : Nat
  body : ResponseBody
deriving DecidableEq

/-- One outbound upstream call, used to trace which network calls a request
performs and in which order. -/
inductive UpstreamCall where
  | specificCall
  | broadCall
  | threadCall
  | imageCall
deriving DecidableEq

/-- JSON body of a request: `const { task, url, content, tweetCount,
imagePrompt } = req.body;`. -/
structure RequestBody where
  task : Option String
  url : Option String
  content : Option String
  tweetCount : Option Int
  imagePrompt : Option String
deriving DecidableEq

/-- The branch condition guarding the Broad extraction attempt
(`src/api/generate.js`, identical in revisions v2 and v3):
`specificResponse.text.trim() === 'Content not found' ||
 specificResponse.text.trim().length < 100`. -/
def triggerBroad (t : String) : Bool :=
  jsTrim t == "Content not found" || decide ((jsTrim t).length < 100)

/-- `content` task of revision v2: Specific attempt, then the Broad attempt
iff `triggerBroad`; a Broad result whose trimmed length is below 100 yields
an explicit `404` telling the user to paste the content manually; wrapper
exceptions are caught by the handler and become `500` with the thrown
message. -/
def contentTask_v2 (specResp broadResp : GeminiResponse) :
    HttpResult × List UpstreamCall :=
  match callGeminiAPI_v2 specResp with
  | .error e => (⟨500, .errorPayload e⟩, [.specificCall])
  | .ok sr =>
    if triggerBroad sr.text then
      match callGeminiAPI_v2 broadResp with
      | .error e => (⟨500, .errorPayload e⟩, [.specificCall, .broadCall])
      | .ok br =>
        if (jsTrim br.text).length < 100 then
          (⟨404, .errorPayload "Could not find content from the provided URL. Please try pasting the content manually."⟩,
            [.specificCall, .broadCall])
        else (⟨200, .textPayload br.text⟩, [.specificCall, .broadCall])
    else (⟨200, .textPayload sr.text⟩, [.specificCall])

/-- `content` task of revision v3: same two-attempt schedule, but both
wrapper calls pass `isContentExtraction = true`, and a Broad result whose
trimmed length is below 100 throws
`"Could not extract enough content from the URL."`, which the handler's
catch converts to a `500`. -/
def contentTask_v3 (specResp broadResp : GeminiResponse) :
    HttpResult × List UpstreamCall :=
  match callGeminiAPI_v3 true specResp with
  | .error e => (⟨500, .errorPayload e⟩, [.specificCall])
  | .ok sr =>
    if triggerBroad sr.text then
      match callGeminiAPI_v3 true broadResp with
      | .error e => (⟨500, .errorPayload e⟩, [.specificCall, .broadCall])
      | .ok br =>
        if (jsTrim br.text).length < 100 then
          (⟨500, .errorPayload "Could not extract enough content from the URL."⟩,
            [.specificCall, .broadCall])
        else (⟨200, .textPayload br.text⟩, [.specificCall, .broadCall])
    else (⟨200, .textPayload sr.text⟩, [.specificCall])

/-- `thread` task of revision v2: one text-model call; its `{ text }` result
is returned verbatim with status 200 (no splitting, counting, length or
numbering validation happens anywhere in the handler); a thrown wrapper
error becomes a `500`. -/
def threadTask_v2 (threadResp : GeminiResponse) :
    HttpResult × List UpstreamCall :=
  match callGeminiAPI_v2 threadResp with
  | .error e => (⟨500, .errorPayload e⟩, [.threadCall])
  | .ok r => (⟨200, .textPayload r.text⟩, [.threadCall])

/-- `thread` task of revision v3 (`responseData = threadResponse;`), same
pass-through shape as v2. -/
def threadTask_v3 (threadResp : GeminiResponse) :
    HttpResult × List UpstreamCall :=
  match callGeminiAPI_v3 false threadResp with
  | .error e => (⟨500, .errorPayload e⟩, [.threadCall])
  | .ok r => (⟨200, .textPayload r.text⟩, [.threadCall])

/-- `image` task of revision v2 (Gemini image backend). -/
def imageTask_v2 (imageResp : GeminiImageResponse) :
    HttpResult × List UpstreamCall :=
  match callGeminiImageAPI imageResp with
  | .error e => (⟨500, .errorPayload e⟩, [.imageCall])
  | .ok u => (⟨200, .imagePayload u⟩, [.imageCall])

/-- `image` task of revision v3 (Perplexity image backend). -/
def imageTask_v3 (imageResp : PplxResponse) :
    HttpResult × List UpstreamCall :=
  match callPerplexityImageAPI imageResp with
  | .error e => (⟨500, .errorPayload e⟩, [.imageCall])
  | .ok u => (⟨200, .imagePayload u⟩, [.imageCall])

/-- Revision v2 `handler`, POST path (the 405 non-POST guard precedes this
and performs no upstream call).  The upstream responses each branch would
receive are passed explicitly; the returned list records the calls actually
made.  The single `GEMINI_API_KEY` falsiness check precedes everything. -/
def handler_v2 (geminiKey : Option String) (req : RequestBody)
    (specResp broadResp threadResp : GeminiResponse)
    (imageResp : GeminiImageResponse) : HttpResult × List UpstreamCall :=
  if !jsTruthy geminiKey then
    (⟨500, .errorPayload "API key is not configured."⟩, [])
  else
    match req.task with
    | some "content" => contentTask_v2 specResp broadResp
    | some "thread" => threadTask_v2 threadResp
    | some "image" => imageTask_v2 imageResp
    | _ => (⟨400, .errorPayload "Invalid task specified."⟩, [])

/-- Revision v3 `handler`, POST path: both `GEMINI_API_KEY` and
`PPLX_API_KEY` are falsiness-checked, in that order, before reading the task
and before any upstream call — including for tasks that never touch the
Perplexity backend. -/
def handler_v3 (geminiKey pplxKey : Option String) (req : RequestBody)
    (specResp broadResp threadResp : GeminiResponse)
    (imageResp : PplxResponse) : HttpResult × List UpstreamCall :=
  if !jsTruthy geminiKey then
    (⟨500, .errorPayload "Gemini API key is not configured."⟩, [])
  else if !jsTruthy pplxKey then
    (⟨500, .errorPayload "Perplexity API key is not configured."⟩, [])
  else
    match req.task with
    | some "content" => contentTask_v3 specResp broadResp
    | some "thread" => threadTask_v3 threadResp
    | some "image" => imageTask_v3 imageResp
    | _ => (⟨400, .errorPayload "Invalid task specified."⟩, [])

/-- One tweet of the client state:
`{ id: index, content: tweet, isEdited: false }`. -/
structure Tweet where
  id : Nat
  content : String
  isEdited : Bool
deriving DecidableEq

/-- The React state of `App` in `src/unnamed/part_000` that
`generateThread` reads and writes. -/
structure AppState where
  url : String
  text : String
  tweetCount : Int
  tweets : List Tweet
  isLoading : Bool
  error : String
  generateImage : Bool
  generatedImageUrl : String
  loadingImage : Bool
deriving DecidableEq

/-- Initial `useState` values of `App`. -/
def initialAppState : AppState :=
  { url := "", text := "", tweetCount := 5, tweets := [], isLoading := false
    error := "", generateImage := false, generatedImageUrl := ""
    loadingImage := false }

/-- `min` attribute of the tweet-count range slider in `App`. -/
def tweetCountSliderMin : Int := 3

/-- `max` attribute of the tweet-count range slider in `App`. -/
def tweetCountSliderMax : Int := 15

/-- The fixed mock content `fetchUrlContent` returns for every URL
(four paragraphs separated by blank lines, trailing newline). -/
def mockArticleContent : String :=
  "The digital landscape is constantly evolving, with new technologies and frameworks emerging at a rapid pace. A key trend in modern web development is the shift towards single-page applications (SPAs) and component-based architectures. Frameworks like React, Vue, and Angular have become industry standards, enabling developers to build complex, interactive user interfaces with ease. These frameworks promote reusability and maintainability, which are crucial for large-scale projects."
  ++ "\n\n"
  ++ "Another significant development is the rise of serverless computing. Services like AWS Lambda and Google Cloud Functions allow developers to run code without managing servers, simplifying deployment and scaling. This model is particularly well-suited for microservices and event-driven architectures. Serverless functions can be triggered by various events, such as API gateway requests, database changes, or file uploads, making them incredibly versatile."
  ++ "\n\n"
  ++ "The move towards a more secure and performant web is also a top priority. Adopting HTTPS is now a non-negotiable standard, and tools for performance optimization, such as lazy loading and code splitting, are widely used. The Core Web Vitals initiative from Google provides a set of metrics to help developers measure and improve user experience, focusing on loading, interactivity, and visual stability. These metrics are becoming increasingly important for search engine rankings."
  ++ "\n\n"
  ++ "Finally, the integration of artificial intelligence and machine learning into everyday applications is accelerating. From personalized recommendations to natural language processing, AI is enhancing user experiences in countless ways. AI models can be deployed on the edge, directly on user devices, or in the cloud. The future of web development will likely involve even deeper integration of these technologies, creating smarter, more intuitive applications."
  ++ "\n"

/-- `fetchUrlContent` of `App`: a placeholder that ignores the URL and
returns the mock article. -/
def fetchUrlContent (_inputUrl : String) : String :=
  mockArticleContent

/-- Number of maximal non-whitespace runs of a character list (`inWord`
records whether the previous character belonged to a run). -/
def wordRunCount (inWord : Bool) : List Char → Nat
  | [] => 0
  | c :: rest =>
    if c.isWhitespace then wordRunCount false rest
    else (if inWord then 0 else 1) + wordRunCount true rest

/-- Length of `s.split(/\s+/)` in JS: the non-empty maximal-run pieces, plus
a leading (resp. trailing) empty piece when the string starts (resp. ends)
with whitespace; `"".split(/\s+/)` is `[""]`. -/
def jsSplitWsCount (s : String) : Nat :=
  match s.data with
  | [] => 1
  | c :: rest =>
    wordRunCount false (c :: rest)
      + (if c.isWhitespace then 1 else 0)
      + (if ((c :: rest).getLastD c).isWhitespace then 1 else 0)

/-- The `rawText` field cases inside a delivered thread response. -/
inductive ThreadRawText where
  /-- `rawText` missing or empty (JS-falsy). -/
  | missing
  /-- `rawText` present and `JSON.parse` yields an array of strings. -/
  | jsonArray (arr : List String)
  /-- `rawText` present but `JSON.parse` throws (caught by the same
  `catch` as a fetch failure). -/
  | malformed
deriving DecidableEq

/-- What the thread-generation fetch inside `generateThread` produced. -/
inductive ThreadApiOutcome where
  /-- The fetch and `response.json()` succeeded; the payload describes
  `result?.candidates?.[0]?.content?.parts?.[0]?.text`. -/
  | response (raw : ThreadRawText)
  /-- The fetch or `response.json()` threw. -/
  | thrown
deriving DecidableEq

/-- `generatedTweets.map((tweet, index) => ({ id: index, content: tweet,
isEdited: false }))`. -/
def mkTweets (arr : List String) : List Tweet :=
  arr.enum.map fun p => { id := p.1, content := p.2, isEdited := false }

/-- The thread-generation `try ... catch ... finally` block of
`generateThread`: a thrown fetch/parse sets the connection error, a missing
`rawText` sets `"Could not generate tweets. Please try again."`, a parsed
array becomes the tweet list; `finally` clears `isLoading`. -/
def threadStage (s : AppState) (out : ThreadApiOutcome) : AppState :=
  match out with
  | .thrown =>
    { s with error := "Failed to connect to the Gemini API. Please try again later.",
             isLoading := false }
  | .response .malformed =>
    { s with error := "Failed to connect to the Gemini API. Please try again later.",
             isLoading := false }
  | .response .missing =>
    { s with error := "Could not generate tweets. Please try again.",
             isLoading := false }
  | .response (.jsonArray arr) =>
    { s with tweets := mkTweets arr, isLoading := false }

/-- What the prompt-derivation fetch inside `createImagePrompt` produced. -/
inductive ImagePromptOutcome where
  /-- Fetch and parse succeeded; payload is the optional candidate text. -/
  | response (t : Option String)
  /-- The fetch or parse threw (caught inside `createImagePrompt`). -/
  | thrown
deriving DecidableEq

/-- `createImagePrompt` of `App`: returns
`result?.candidates?.[0]?.content?.parts?.[0]?.text || null`, and `null`
when its own `try` catches. -/
def createImagePromptResult (out : ImagePromptOutcome) : Option String :=
  match out with
  | .response t => getCandidateText t
  | .thrown => none

/-- What the Imagen fetch inside `generateThread` produced. -/
inductive ImageApiOutcome where
  /-- Fetch and `response.json()` succeeded; payload is
  `imageResult?.predictions?.[0]?.bytesBase64Encoded`. -/
  | response (base64Data : Option String)
  /-- The fetch or `response.json()` threw. -/
  | thrown
deriving DecidableEq

/-- The optional image block at the end of `generateThread`: runs only when
`generateImage && contentToSummarize`; a `null` derived prompt throws, both
throw paths are caught and set
`"Failed to generate image. Please try again."`; a delivered response
without base64 data only logs (state unchanged apart from `loadingImage`);
`finally` clears `loadingImage`. -/
def imageStage (s : AppState) (contentToSummarize : String)
    (pOut : ImagePromptOutcome) (iOut : ImageApiOutcome) : AppState :=
  if s.generateImage && contentToSummarize ≠ "" then
    let s := { s with loadingImage := true }
    match createImagePromptResult pOut with
    | none =>
      { s with error := "Failed to generate image. Please try again.",
               loadingImage := false }
    | some _ =>
      match iOut with
      | .thrown =>
        { s with error := "Failed to generate image. Please try again.",
                 loadingImage := false }
      | .response b64 =>
        match getCandidateText b64 with
        | some b =>
          { s with generatedImageUrl := "data:image/png;base64," ++ b,
                   loadingImage := false }
        | none => { s with loadingImage := false }
  else s

/-- `generateThread` of `App`: resets the result state, resolves
`contentToSummarize` from the URL (mock fetch) or the pasted text, enforces
the 3000-word limit, runs the thread stage, then the optional image stage.
The network outcomes of the three possible fetches are explicit inputs. -/
def generateThread (s0 : AppState) (tOut : ThreadApiOutcome)
    (pOut : ImagePromptOutcome) (iOut : ImageApiOutcome) : AppState :=
  let s := { s0 with isLoading := true, error := "", tweets := []
                     generatedImageUrl := "", loadingImage := false }
  if s.url ≠ "" then
    let contentToSummarize := fetchUrlContent s.url
    if jsSplitWsCount contentToSummarize > 3000 then
      { s with error := "Blog content exceeds the 3000-word limit.",
               isLoading := false }
    else imageStage (threadStage s tOut) contentToSummarize pOut iOut
  else if s.text = "" then
    { s with error := "Please paste some text or enter a URL.",
             isLoading := false }
  else
    let contentToSummarize := s.text
    if jsSplitWsCount contentToSummarize > 3000 then
      { s with error := "Blog content exceeds the 3000-word limit.",
               isLoading := false }
    else imageStage (threadStage s tOut) contentToSummarize pOut iOut

/-- Leftmost, non-overlapping split of a character list at the two-character
separator `"\n\n"` (the accumulator holds the current piece reversed). -/
def blankSplitAux (acc : List Char) : List Char → List (List Char)
  | [] => [acc.reverse]
  | '\n' :: '\n' :: rest => acc.reverse :: blankSplitAux [] rest
  | c :: rest => blankSplitAux (c :: acc) rest

/-- Modelled from the spec: the blank-line splitting convention for
free-text thread output ("split on blank-line boundaries"), i.e.
`s.split("\n\n")`.  No such splitting exists anywhere in the source; this
definition exists only to state the spec's segment-count requirement
against the code. -/
def blankLineSegments (s : String) : List String :=
  (blankSplitAux [] s.data).map fun l => ⟨l⟩

/-! ## Helper lemmas -/

/-- A Gemini response with a parseable body, ok status and (truthy)
candidate text succeeds in the v2 wrapper with exactly that text. -/
theorem callGeminiAPI_v2_ok (r : GeminiResponse) (t : String)
    (hj : r.bodyIsJson = true) (ho : r.ok = true)
    (ht : getCandidateText r.candidateText = some t) :
    callGeminiAPI_v2 r = .ok { text := t } := by
  simp [callGeminiAPI_v2, hj, ho, ht]

/-- Same as `callGeminiAPI_v2_ok` for the v3 wrapper, any extraction flag. -/
theorem callGeminiAPI_v3_ok (b : Bool) (r : GeminiResponse) (t : String)
    (hj : r.bodyIsJson = true) (ho : r.ok = true)
    (ht : getCandidateText r.candidateText = some t) :
    callGeminiAPI_v3 b r = .ok { text := t } := by
  simp [callGeminiAPI_v3, hj, ho, ht]

/-- A truthy candidate text is never the empty string. -/
theorem getCandidateText_some_ne (x : Option String) (t : String)
    (h : getCandidateText x = some t) : t ≠ "" := by
  rcases x with _ | s
  · simp [getCandidateText] at h
  · by_cases hs : s = "" <;> simp [getCandidateText, hs] at h
    exact h ▸ hs

/-- The v2 content task performs either one or two upstream calls, in
schedule order. -/
theorem contentTask_v2_trace_cases (s b : GeminiResponse) :
    (contentTask_v2 s b).2 = [.specificCall] ∨
    (contentTask_v2 s b).2 = [.specificCall, .broadCall] := by
  unfold contentTask_v2
  cases callGeminiAPI_v2 s with
  | error e => left; rfl
  | ok sr =>
    by_cases htr : triggerBroad sr.text
    · simp only [htr, if_true]
      cases callGeminiAPI_v2 b with
      | error e => right; rfl
      | ok br =>
        dsimp only
        split <;> (right; rfl)
    · simp [htr]

/-- The v3 content task performs either one or two upstream calls, in
schedule order. -/
theorem contentTask_v3_trace_cases (s b : GeminiResponse) :
    (contentTask_v3 s b).2 = [.specificCall] ∨
    (contentTask_v3 s b).2 = [.specificCall, .broadCall] := by
  unfold contentTask_v3
  cases callGeminiAPI_v3 true s with
  | error e => left; rfl
  | ok sr =>
    by_cases htr : triggerBroad sr.text
    · simp only [htr, if_true]
      cases callGeminiAPI_v3 true b with
      | error e => right; rfl
      | ok br =>
        dsimp only
        split <;> (right; rfl)
    · simp [htr]

/-! ## Claim theorems -/

/-- C5: for a `content` request whose Specific attempt succeeds with text
`st`, the Broad attempt runs exactly once — strictly after the Specific one
— precisely when `triggerBroad st` holds (sentinel or trimmed length below
100), is skipped entirely otherwise, and in all cases (both revisions v2
and v3) an extraction performs at most two upstream calls. -/
theorem extraction_attempt_schedule (sResp bResp : GeminiResponse)
    (st : String) (hj : sResp.bodyIsJson = true) (ho : sResp.ok = true)
    (ht : getCandidateText sResp.candidateText = some st) :
    (triggerBroad st = true →
      (contentTask_v2 sResp bResp).2 = [.specificCall, .broadCall] ∧
      (contentTask_v3 sResp bResp).2 = [.specificCall, .broadCall]) ∧
    (triggerBroad st = false →
      (contentTask_v2 sResp bResp).2 = [.specificCall] ∧
      (contentTask_v3 sResp bResp).2 = [.specificCall]) ∧
    (∀ s b : GeminiResponse,
      (contentTask_v2 s b).2.length ≤ 2 ∧ (contentTask_v3 s b).2.length ≤ 2) := by
  have h2 := callGeminiAPI_v2_ok sResp st hj ho ht
  have h3 := callGeminiAPI_v3_ok true sResp st hj ho ht
  refine ⟨fun htr => ⟨?_, ?_⟩, fun htr => ⟨?_, ?_⟩, fun s b => ⟨?_, ?_⟩⟩
  · unfold contentTask_v2
    rw [h2]; simp only [htr, if_true]
    cases callGeminiAPI_v2 bResp with
    | error e => rfl
    | ok br => dsimp only; split <;> rfl
  · unfold contentTask_v3
    rw [h3]; simp only [htr, if_true]
    cases callGeminiAPI_v3 true bResp with
    | error e => rfl
    | ok br => dsimp only; split <;> rfl
  · unfold contentTask_v2
    rw [h2]; simp [htr]
  · unfold contentTask_v3
    rw [h3]; simp [htr]
  · rcases contentTask_v2_trace_cases s b with h | h <;> rw [h] <;> decide
  · rcases contentTask_v3_trace_cases s b with h | h <;> rw [h] <;> decide

/-- C5 witness: a concrete Specific result of 5 characters triggers exactly
one Broad call in both revisions, and schedules never exceed two calls. -/
theorem extraction_attempt_schedule_witness :
    triggerBroad "short" = true ∧
    (contentTask_v2 ⟨true, true, 200, none, some "short"⟩
        ⟨true, true, 200, none, some "broad text"⟩).2 =
      [.specificCall, .broadCall] ∧
    (contentTask_v3 ⟨true, true, 200, none, some "short"⟩
        ⟨true, true, 200, none, some "broad text"⟩).2 =
      [.specificCall, .broadCall] :=
  ⟨by decide,
   (extraction_attempt_schedule ⟨true, true, 200, none, some "short"⟩
       ⟨true, true, 200, none, some "broad text"⟩ "short" rfl rfl
       (by decide)).1 (by decide)⟩

/-- C6: the Broad attempt is triggered whenever the trimmed Specific result
is a case variant of the sentinel `"Content not found"` (pointwise
case-insensitive character equality) or its trimmed length is below 100.
The code compares case-sensitively, but every case variant of the
17-character sentinel falls under the length branch, so the normalized
condition still implies the trigger. -/
theorem sentinel_or_short_triggers_broad (s : String)
    (h : List.Forall₂ (fun a b => a.toLower = b.toLower)
          (jsTrim s).data ("Content not found" : String).data ∨
         (jsTrim s).length < 100) :
    triggerBroad s = true := by
  have hlen : (jsTrim s).length < 100 := by
    rcases h with h | h
    · have hl : (jsTrim s).data.length =
          ("Content not found" : String).data.length := h.length_eq
      show (jsTrim s).data.length < 100
      rw [hl]; decide
    · exact h
  simp only [triggerBroad, Bool.or_eq_true, decide_eq_true_eq]
  exact Or.inr hlen

/-- C6 witness: the case variant `"Content Not Found"` (which the code's
case-sensitive equality does NOT match) still triggers the Broad attempt. -/
theorem sentinel_or_short_triggers_broad_witness :
    (jsTrim " Content Not Found ").length < 100 ∧
    jsTrim " Content Not Found " ≠ "Content not found" ∧
    triggerBroad " Content Not Found " = true :=
  ⟨by decide, by decide,
   sentinel_or_short_triggers_broad " Content Not Found " (Or.inr (by decide))⟩

/-- C1 (amended): a successful `thread` request returns the upstream text
verbatim with status 200 for every `tweetCount` — the handler never splits
the text, counts blank-line segments, checks the 280-character ceiling, or
checks the numbering prefixes (those constraints exist only inside the
prompt sent upstream); on the client, a parsed array of any length is
accepted as the tweet list unchanged, and the
`"Could not generate tweets. Please try again."` error is raised only when
the upstream response carries no text at all, never on a count mismatch. -/
theorem thread_output_passthrough (gk : String) (u c ip : Option String)
    (tc : Option Int) (sR bR tR : GeminiResponse)
    (iR : GeminiImageResponse) (t : String) (hgk : gk ≠ "")
    (hj : tR.bodyIsJson = true) (ho : tR.ok = true)
    (ht : getCandidateText tR.candidateText = some t) :
    handler_v2 (some gk) ⟨some "thread", u, c, tc, ip⟩ sR bR tR iR =
      (⟨200, .textPayload t⟩, [.threadCall]) ∧
    (∀ (s : AppState) (arr : List String),
      (threadStage s (.response (.jsonArray arr))).tweets = mkTweets arr ∧
      (threadStage s (.response (.jsonArray arr))).error = s.error) ∧
    (∀ s : AppState,
      (threadStage s (.response .missing)).error =
        "Could not generate tweets. Please try again.") := by
  refine ⟨?_, fun s arr => ⟨rfl, rfl⟩, fun s => rfl⟩
  have h2 := callGeminiAPI_v2_ok tR t hj ho ht
  simp [handler_v2, jsTruthy, hgk, threadTask_v2, h2]

/-- C1 witness: a concrete successful thread request with an upstream text
of two blank-line segments passes through for `tweetCount = 5`. -/
theorem thread_output_passthrough_witness :
    handler_v2 (some "key")
        ⟨some "thread", none, some "blog content", some 5, none⟩
        ⟨true, true, 200, none, none⟩ ⟨true, true, 200, none, none⟩
        ⟨true, true, 200, none, some "1/5 First tweet\n\n2/5 Second tweet"⟩
        ⟨true, none⟩ =
      (⟨200, .textPayload "1/5 First tweet\n\n2/5 Second tweet"⟩,
        [.threadCall]) :=
  (thread_output_passthrough "key" none (some "blog content") none (some 5)
    ⟨true, true, 200, none, none⟩ ⟨true, true, 200, none, none⟩
    ⟨true, true, 200, none, some "1/5 First tweet\n\n2/5 Second tweet"⟩
    ⟨true, none⟩ "1/5 First tweet\n\n2/5 Second tweet"
    (by decide) rfl rfl (by decide)).1

/-- C1 counterexample: with `tweetCount = 5`, an upstream text of only two
blank-line-separated segments is returned as a 200 success (no `generation`
error), and the client likewise accepts a 2-element array with no error —
a segment-count mismatch is silently passed through. -/
theorem thread_segment_mismatch_not_rejected :
    handler_v2 (some "key")
        ⟨some "thread", none, some "blog content", some 5, none⟩
        ⟨true, true, 200, none, none⟩ ⟨true, true, 200, none, none⟩
        ⟨true, true, 200, none, some "1/5 First tweet\n\n2/5 Second tweet"⟩
        ⟨true, none⟩ =
      (⟨200, .textPayload "1/5 First tweet\n\n2/5 Second tweet"⟩,
        [.threadCall]) ∧
    (blankLineSegments "1/5 First tweet\n\n2/5 Second tweet").length = 2 ∧
    (threadStage { initialAppState with isLoading := true, tweetCount := 5 }
        (.response (.jsonArray ["1/5 a", "2/5 b"]))).tweets.length = 2 ∧
    (threadStage { initialAppState with isLoading := true, tweetCount := 5 }
        (.response (.jsonArray ["1/5 a", "2/5 b"]))).error = "" ∧
    (2 : Nat) ≠ 5 := by
  refine ⟨?_, by decide, by decide, by decide, by decide⟩
  decide

/-- C2 (amended): when both extraction attempts deliver text whose trimmed
length is below 100 characters, no thread generation is attempted and the
request fails — but only revision v2 reports the not-found class (HTTP 404
with the paste-manually message); revision v3 throws and surfaces it as an
HTTP 500 with `"Could not extract enough content from the URL."`. -/
theorem double_short_extraction_outcomes (sResp bResp : GeminiResponse)
    (st bt : String)
    (hsj : sResp.bodyIsJson = true) (hso : sResp.ok = true)
    (hst : getCandidateText sResp.candidateText = some st)
    (hslen : (jsTrim st).length < 100)
    (hbj : bResp.bodyIsJson = true) (hbo : bResp.ok = true)
    (hbt : getCandidateText bResp.candidateText = some bt)
    (hblen : (jsTrim bt).length < 100) :
    contentTask_v2 sResp bResp =
      (⟨404, .errorPayload "Could not find content from the provided URL. Please try pasting the content manually."⟩,
        [.specificCall, .broadCall]) ∧
    contentTask_v3 sResp bResp =
      (⟨500, .errorPayload "Could not extract enough content from the URL."⟩,
        [.specificCall, .broadCall]) ∧
    UpstreamCall.threadCall ∉ (contentTask_v2 sResp bResp).2 ∧
    UpstreamCall.threadCall ∉ (contentTask_v3 sResp bResp).2 := by
  have htr : triggerBroad st = true := by
    simp only [triggerBroad, Bool.or_eq_true, decide_eq_true_eq]
    exact Or.inr hslen
  have hs2 := callGeminiAPI_v2_ok sResp st hsj hso hst
  have hb2 := callGeminiAPI_v2_ok bResp bt hbj hbo hbt
  have hs3 := callGeminiAPI_v3_ok true sResp st hsj hso hst
  have hb3 := callGeminiAPI_v3_ok true bResp bt hbj hbo hbt
  have h2 : contentTask_v2 sResp bResp =
      (⟨404, .errorPayload "Could not find content from the provided URL. Please try pasting the content manually."⟩,
        [.specificCall, .broadCall]) := by
    unfold contentTask_v2
    rw [hs2]; simp only [htr, if_true]; rw [hb2]
    simp [hblen]
  have h3 : contentTask_v3 sResp bResp =
      (⟨500, .errorPayload "Could not extract enough content from the URL."⟩,
        [.specificCall, .broadCall]) := by
    unfold contentTask_v3
    rw [hs3]; simp only [htr, if_true]; rw [hb3]
    simp [hblen]
  exact ⟨h2, h3, by rw [h2]; decide, by rw [h3]; decide⟩

/-- C2 witness: concrete short Specific and Broad results produce the 404
in v2 and the 500 in v3, with no thread-generation call in either. -/
theorem double_short_extraction_outcomes_witness :
    (jsTrim "short").length < 100 ∧
    contentTask_v2 ⟨true, true, 200, none, some "short"⟩
        ⟨true, true, 200, none, some "also short"⟩ =
      (⟨404, .errorPayload "Could not find content from the provided URL. Please try pasting the content manually."⟩,
        [.specificCall, .broadCall]) :=
  ⟨by decide,
   (double_short_extraction_outcomes ⟨true, true, 200, none, some "short"⟩
      ⟨true, true, 200, none, some "also short"⟩ "short" "also short"
      rfl rfl (by decide) (by decide) rfl rfl (by decide) (by decide)).1⟩

/-- C2 counterexample: in revision v3 a `content` request whose two
attempts both return short text yields HTTP 500 (a thrown generic error),
not the claimed not-found-class 404. -/
theorem double_short_extraction_v3_not_404 :
    (contentTask_v3 ⟨true, true, 200, none, some "short"⟩
        ⟨true, true, 200, none, some "also short"⟩).1 =
      ⟨500, .errorPayload "Could not extract enough content from the URL."⟩ ∧
    (contentTask_v3 ⟨true, true, 200, none, some "short"⟩
        ⟨true, true, 200, none, some "also short"⟩).1.status ≠ 404 := by
  decide

/-- C3 (amended): in revision v3 an unparseable upstream body degrades to
the sentinel result `{ text: "Content not found" }` for extraction calls
and throws the non-JSON transport error otherwise; but in revision v2
(whose wrapper has no extraction flag) every non-JSON body throws the
transport error, extraction calls included. -/
theorem nonjson_body_handling (r : GeminiResponse)
    (h : r.bodyIsJson = false) :
    callGeminiAPI_v3 true r = .ok { text := "Content not found" } ∧
    callGeminiAPI_v3 false r =
      .error "Failed to parse JSON response. Received a non-JSON response." ∧
    callGeminiAPI_v2 r =
      .error "Gemini API call failed. Received a non-JSON response." := by
  simp [callGeminiAPI_v2, callGeminiAPI_v3, h]

/-- C3 witness: a concrete non-JSON response yields the sentinel in the v3
extraction call and the transport error otherwise. -/
theorem nonjson_body_handling_witness :
    callGeminiAPI_v3 true ⟨false, true, 200, none, none⟩ =
      .ok { text := "Content not found" } ∧
    callGeminiAPI_v2 ⟨false, true, 200, none, none⟩ =
      .error "Gemini API call failed. Received a non-JSON response." :=
  ⟨(nonjson_body_handling ⟨false, true, 200, none, none⟩ rfl).1,
   (nonjson_body_handling ⟨false, true, 200, none, none⟩ rfl).2.2⟩

/-- C3 counterexample: in revision v2 a `content` request whose Specific
extraction call receives a non-JSON body hard-fails with the transport
error (HTTP 500) instead of degrading to the sentinel — extraction CAN
hard-fail solely on malformed upstream framing. -/
theorem nonjson_extraction_hard_fails_v2 :
    contentTask_v2 ⟨false, true, 200, none, none⟩
        ⟨true, true, 200, none, some "long enough replacement text"⟩ =
      (⟨500, .errorPayload "Gemini API call failed. Received a non-JSON response."⟩,
        [.specificCall]) := by
  decide

/-- C4 (amended): missing credentials are detected before any upstream call
(empty call trace) and reported as an HTTP 500 config error; the Gemini
credential is mandatory for every task in every revision, but in revision
v3 the Perplexity credential is also checked unconditionally for every
task, not only when image generation is requested. -/
theorem missing_credentials_config_error (gk pk : Option String)
    (req : RequestBody) (sR bR tR : GeminiResponse) (iR : PplxResponse)
    (iR2 : GeminiImageResponse)
    (h : jsTruthy gk = false ∨ jsTruthy pk = false) :
    (handler_v3 gk pk req sR bR tR iR).2 = [] ∧
    (handler_v3 gk pk req sR bR tR iR).1.status = 500 ∧
    ((handler_v3 gk pk req sR bR tR iR).1.body =
        .errorPayload "Gemini API key is not configured." ∨
      (handler_v3 gk pk req sR bR tR iR).1.body =
        .errorPayload "Perplexity API key is not configured.") ∧
    (jsTruthy gk = false →
      handler_v2 gk req sR bR tR iR2 =
        (⟨500, .errorPayload "API key is not configured."⟩, [])) := by
  by_cases hg : jsTruthy gk = false
  · refine ⟨?_, ?_, Or.inl ?_, fun _ => ?_⟩ <;>
      simp [handler_v3, handler_v2, hg]
  · have hg' : jsTruthy gk = true := by
      cases hgk : jsTruthy gk
      · exact absurd hgk hg
      · rfl
    have hp : jsTruthy pk = false := by
      rcases h with h | h
      · exact absurd h hg
      · exact h
    refine ⟨?_, ?_, Or.inr ?_, fun hfalse => absurd hfalse hg⟩ <;>
      simp [handler_v3, hg', hp]

/-- C4 witness: with the Gemini key present and the Perplexity key absent,
a concrete request is rejected with the 500 config error and zero calls. -/
theorem missing_credentials_config_error_witness :
    (handler_v3 (some "gemini-key") none
        ⟨some "content", some "https://example.com/a", none, none, none⟩
        ⟨true, true, 200, none, none⟩ ⟨true, true, 200, none, none⟩
        ⟨true, true, 200, none, none⟩ ⟨true, true, none, none⟩).2 = [] ∧
    (handler_v3 (some "gemini-key") none
        ⟨some "content", some "https://example.com/a", none, none, none⟩
        ⟨true, true, 200, none, none⟩ ⟨true, true, 200, none, none⟩
        ⟨true, true, 200, none, none⟩ ⟨true, true, none, none⟩).1.status = 500 :=
  ⟨(missing_credentials_config_error (some "gemini-key") none
      ⟨some "content", some "https://example.com/a", none, none, none⟩
      ⟨true, true, 200, none, none⟩ ⟨true, true, 200, none, none⟩
      ⟨true, true, 200, none, none⟩ ⟨true, true, none, none⟩ ⟨true, none⟩
      (Or.inr rfl)).1,
   (missing_credentials_config_error (some "gemini-key") none
      ⟨some "content", some "https://example.com/a", none, none, none⟩
      ⟨true, true, 200, none, none⟩ ⟨true, true, 200, none, none⟩
      ⟨true, true, 200, none, none⟩ ⟨true, true, none, none⟩ ⟨true, none⟩
      (Or.inr rfl)).2.1⟩

/-- C4 counterexample: in revision v3 a `thread` request — image generation
not requested — is still rejected with the Perplexity config error when
only that credential is absent, contradicting "mandatory only when image
generation is requested". -/
theorem pplx_key_required_without_image_task :
    handler_v3 (some "gemini-key") none
        ⟨some "thread", none, some "some blog text", some 5, none⟩
        ⟨true, true, 200, none, none⟩ ⟨true, true, 200, none, none⟩
        ⟨true, true, 200, none, some "1/5 ok"⟩ ⟨true, true, none, none⟩ =
      (⟨500, .errorPayload "Perplexity API key is not configured."⟩, []) ∧
    (some "thread" : Option String) ≠ some "image" := by
  decide

/-- C7 (amended): the Gemini image backend (revisions v1/v2) and the Imagen
backend (revision v4) deliver a data-URI-style base64 PNG string with a
non-empty payload on success; but the Perplexity backend (revision v3)
returns the upstream's remote URL verbatim, so a successful v3 `image`
request does not produce a data URI. -/
theorem image_result_formats (g : GeminiImageResponse) (im : ImagenResponse)
    (p : PplxResponse) (dg di dp : String)
    (hg : callGeminiImageAPI g = .ok dg)
    (hi : callImagenAPI im = .ok di)
    (hp : callPerplexityImageAPI p = .ok dp) :
    (∃ b, b ≠ "" ∧ dg = "data:image/png;base64," ++ b) ∧
    (∃ b, b ≠ "" ∧ di = "data:image/png;base64," ++ b) ∧
    p.url = some dp := by
  refine ⟨?_, ?_, ?_⟩
  · rcases g with ⟨bj, ib⟩
    cases bj
    · simp [callGeminiImageAPI] at hg
    · rcases ib with _ | s
      · simp [callGeminiImageAPI, getCandidateText] at hg
      · by_cases hs : s = ""
        · simp [callGeminiImageAPI, getCandidateText, hs] at hg
        · refine ⟨s, hs, ?_⟩
          simp [callGeminiImageAPI, getCandidateText, hs] at hg
          exact hg.symm
  · rcases im with ⟨bj, ok, preds⟩
    cases bj
    · simp [callImagenAPI] at hi
    · cases ok
      · simp [callImagenAPI] at hi
      · rcases preds with _ | ⟨_ | ⟨⟨pb⟩, rest⟩⟩
        · simp [callImagenAPI] at hi
        · simp [callImagenAPI] at hi
        · rcases pb with _ | s
          · simp [callImagenAPI, getCandidateText] at hi
          · by_cases hs : s = ""
            · simp [callImagenAPI, getCandidateText, hs] at hi
            · refine ⟨s, hs, ?_⟩
              simp [callImagenAPI, getCandidateText, hs] at hi
              exact hi.symm
  · rcases p with ⟨ok, bj, em, u⟩
    cases ok
    · simp [callPerplexityImageAPI] at hp
    · cases bj
      · simp [callPerplexityImageAPI] at hp
      · rcases u with _ | s
        · simp [callPerplexityImageAPI, getCandidateText] at hp
        · by_cases hs : s = ""
          · simp [callPerplexityImageAPI, getCandidateText, hs] at hp
          · simp [callPerplexityImageAPI, getCandidateText, hs] at hp
            simp [hp]

/-- C7 witness: concrete successful responses of the three image backends. -/
theorem image_result_formats_witness :
    (∃ b, b ≠ "" ∧ ("data:image/png;base64,QUJD" : String) =
        "data:image/png;base64," ++ b) ∧
    (∃ b, b ≠ "" ∧ ("data:image/png;base64,REVG" : String) =
        "data:image/png;base64," ++ b) ∧
    (⟨true, true, none, some "https://img.example.com/a.png"⟩ :
        PplxResponse).url = some "https://img.example.com/a.png" :=
  image_result_formats ⟨true, some "QUJD"⟩
    ⟨true, true, some [⟨some "REVG"⟩]⟩
    ⟨true, true, none, some "https://img.example.com/a.png"⟩
    "data:image/png;base64,QUJD" "data:image/png;base64,REVG"
    "https://img.example.com/a.png" rfl rfl rfl

/-- C7 counterexample: a successful v3 `image` request returns the remote
URL delivered by the Perplexity backend, which is not a
`data:image/png;base64,`-prefixed data URI. -/
theorem perplexity_returns_remote_url :
    handler_v3 (some "gemini-key") (some "pplx-key")
        ⟨some "image", none, none, none, some "a sunset over the sea"⟩
        ⟨true, true, 200, none, none⟩ ⟨true, true, 200, none, none⟩
        ⟨true, true, 200, none, none⟩
        ⟨true, true, none, some "https://images.example.com/pic.png"⟩ =
      (⟨200, .imagePayload "https://images.example.com/pic.png"⟩,
        [.imageCall]) ∧
    (("data:image/png;base64," : String).data.isPrefixOf
        ("https://images.example.com/pic.png" : String).data) = false := by
  decide

/-- C8: when a thread and an image were both requested, thread generation
succeeded (a parsed tweet array arrived), and the image stage fails by
throwing (a `null` derived prompt or a thrown image fetch), the final state
still holds all generated tweet entries while the failure is recorded as
the image-stage error message — not a blanket failure of the request. -/
theorem image_failure_preserves_thread (s : AppState) (arr : List String)
    (pOut : ImagePromptOutcome) (iOut : ImageApiOutcome)
    (hurl : s.url = "") (htext : s.text ≠ "")
    (hwords : jsSplitWsCount s.text ≤ 3000)
    (himg : s.generateImage = true)
    (hfail : createImagePromptResult pOut = none ∨ iOut = .thrown) :
    (generateThread s (.response (.jsonArray arr)) pOut iOut).tweets =
      mkTweets arr ∧
    (generateThread s (.response (.jsonArray arr)) pOut iOut).tweets.length =
      arr.length ∧
    (generateThread s (.response (.jsonArray arr)) pOut iOut).error =
      "Failed to generate image. Please try again." ∧
    (generateThread s (.response (.jsonArray arr)) pOut iOut).generatedImageUrl
      = "" := by
  have hred : generateThread s (.response (.jsonArray arr)) pOut iOut =
      imageStage (threadStage
        { s with isLoading := true, error := "", tweets := []
                 generatedImageUrl := "", loadingImage := false }
        (.response (.jsonArray arr))) s.text pOut iOut := by
    unfold generateThread
    simp only [hurl]
    rw [if_neg (by simp), if_neg htext, if_neg (by omega)]
  rw [hred]
  unfold threadStage imageStage
  simp only [himg, htext, ne_eq, not_false_eq_true, Bool.true_and,
    decide_eq_true_eq, if_true]
  rcases hcp : createImagePromptResult pOut with _ | pr
  · simp [hcp, mkTweets]
  · rcases hfail with hfail | hfail
    · rw [hfail] at hcp; cases hcp
    · rw [hfail]
      simp [hcp, mkTweets]

/-- C8 witness: with valid pasted content, `tweetCount = 5`, image
generation requested, a 5-entry generated thread and a throwing image
stage, all 5 entries survive alongside the image-stage error message. -/
theorem image_failure_preserves_thread_witness :
    ({ initialAppState with
        text := "A short post about formal verification of web apps.",
        tweetCount := 5, generateImage := true } : AppState).generateImage
      = true ∧
    (generateThread
        { initialAppState with
          text := "A short post about formal verification of web apps.",
          tweetCount := 5, generateImage := true }
        (.response (.jsonArray
          ["1/5 Hook", "2/5 Point one", "3/5 Point two", "4/5 Point three",
           "5/5 Wrap up"]))
        .thrown (.response none)).tweets.length = 5 ∧
    (generateThread
        { initialAppState with
          text := "A short post about formal verification of web apps.",
          tweetCount := 5, generateImage := true }
        (.response (.jsonArray
          ["1/5 Hook", "2/5 Point one", "3/5 Point two", "4/5 Point three",
           "5/5 Wrap up"]))
        .thrown (.response none)).error =
      "Failed to generate image. Please try again." := by
  have h := image_failure_preserves_thread
    { initialAppState with
      text := "A short post about formal verification of web apps.",
      tweetCount := 5, generateImage := true }
    ["1/5 Hook", "2/5 Point one", "3/5 Point two", "4/5 Point three",
     "5/5 Wrap up"]
    .thrown (.response none) rfl (by decide) (by decide) rfl (Or.inl rfl)
  exact ⟨rfl, by rw [h.2.1]; rfl, h.2.2.1⟩

/-- C9 (amended): the `[3,15]` range for `tweetCount` is imposed only by
the client slider attributes (`min=3`, `max=15`, initial value 5); the
server pipeline performs no `tweetCount` validation whatsoever — a `thread`
request proceeds to the generation call for every `tweetCount`, missing or
out of range alike. -/
theorem tweetCount_not_validated_server (gk pk : String)
    (u c ip : Option String) (tc : Option Int)
    (sR bR tR : GeminiResponse) (iR : PplxResponse)
    (hg : gk ≠ "") (hp : pk ≠ "") :
    (handler_v3 (some gk) (some pk) ⟨some "thread", u, c, tc, ip⟩
        sR bR tR iR).2 = [.threadCall] ∧
    tweetCountSliderMin = 3 ∧ tweetCountSliderMax = 15 ∧
    initialAppState.tweetCount = 5 ∧
    tweetCountSliderMin ≤ initialAppState.tweetCount ∧
    initialAppState.tweetCount ≤ tweetCountSliderMax := by
  refine ⟨?_, rfl, rfl, rfl, by decide, by decide⟩
  have hred : handler_v3 (some gk) (some pk) ⟨some "thread", u, c, tc, ip⟩
      sR bR tR iR = threadTask_v3 tR := by
    simp [handler_v3, jsTruthy, hg, hp]
  rw [hred]
  unfold threadTask_v3
  cases callGeminiAPI_v3 false tR with
  | error e => rfl
  | ok r => rfl

/-- C9 witness: a concrete `thread` request with `tweetCount = 100` still
performs the generation call. -/
theorem tweetCount_not_validated_server_witness :
    (handler_v3 (some "gk") (some "pk")
        ⟨some "thread", none, some "pasted blog text", some 100, none⟩
        ⟨true, true, 200, none, none⟩ ⟨true, true, 200, none, none⟩
        ⟨true, true, 200, none, some "lots of tweets"⟩
        ⟨true, true, none, none⟩).2 = [.threadCall] :=
  (tweetCount_not_validated_server "gk" "pk" none (some "pasted blog text")
    none (some 100) ⟨true, true, 200, none, none⟩
    ⟨true, true, 200, none, none⟩
    ⟨true, true, 200, none, some "lots of tweets"⟩
    ⟨true, true, none, none⟩ (by decide) (by decide)).1

/-- C9 counterexample: a `thread` request with `tweetCount` MISSING is
accepted by the pipeline — it performs the generation call and returns a
200 success — contradicting "does not proceed as a valid
GenerationRequest". -/
theorem thread_without_tweetCount_proceeds :
    handler_v3 (some "gk") (some "pk")
        ⟨some "thread", none, some "pasted blog text", none, none⟩
        ⟨true, true, 200, none, none⟩ ⟨true, true, 200, none, none⟩
        ⟨true, true, 200, none, some "1/3 a\n\n2/3 b\n\n3/3 c"⟩
        ⟨true, true, none, none⟩ =
      (⟨200, .textPayload "1/3 a\n\n2/3 b\n\n3/3 c"⟩, [.threadCall]) := by
  decide

/-- C10 (amended): every Gemini text-wrapper success carries a non-empty
text in every revision (an ok response lacking a non-empty first-candidate
text always becomes a thrown error instead), but the thrown message is
`"Gemini API call failed: No content returned."` only in revisions v2/v3;
revision v1 throws the generic `"Gemini API call failed."`. -/
theorem text_api_success_nonempty (r : GeminiResponse) (b : Bool) :
    (∀ t, callGeminiAPI_v1 r = .ok t → t.text ≠ "") ∧
    (∀ t, callGeminiAPI_v2 r = .ok t → t.text ≠ "") ∧
    (∀ t, callGeminiAPI_v3 b r = .ok t → t.text ≠ "") ∧
    (r.bodyIsJson = true → r.ok = true →
      getCandidateText r.candidateText = none →
      callGeminiAPI_v2 r = .error "Gemini API call failed: No content returned." ∧
      callGeminiAPI_v1 r = .error "Gemini API call failed.") := by
  refine ⟨?_, ?_, ?_, fun hj ho hn => ?_⟩
  · intro t h
    unfold callGeminiAPI_v1 at h
    split at h
    · cases h
    · split at h
      · cases h
      · rcases hc : getCandidateText r.candidateText with _ | s <;> rw [hc] at h
        · cases h
        · cases h
          exact getCandidateText_some_ne r.candidateText s hc
  · intro t h
    unfold callGeminiAPI_v2 at h
    split at h
    · cases h
    · split at h
      · cases h
      · rcases hc : getCandidateText r.candidateText with _ | s <;> rw [hc] at h
        · cases h
        · cases h
          exact getCandidateText_some_ne r.candidateText s hc
  · intro t h
    unfold callGeminiAPI_v3 at h
    split at h
    · split at h
      · cases h
        decide
      · cases h
    · split at h
      · cases h
      · rcases hc : getCandidateText r.candidateText with _ | s <;> rw [hc] at h
        · cases h
        · cases h
          exact getCandidateText_some_ne r.candidateText s hc
  · constructor
    · simp [callGeminiAPI_v2, hj, ho, hn]
    · simp [callGeminiAPI_v1, hj, ho, hn]

/-- C10 witness: an ok response whose candidate text is the empty string is
converted into the no-content error by the v2 wrapper. -/
theorem text_api_success_nonempty_witness :
    callGeminiAPI_v2 ⟨true, true, 200, none, some ""⟩ =
      .error "Gemini API call failed: No content returned." :=
  ((text_api_success_nonempty ⟨true, true, 200, none, some ""⟩ true).2.2.2
    rfl rfl (by decide)).1

/-- C10 counterexample: in revision v1 an HTTP-success response with an
empty candidate text is converted into the generic
`"Gemini API call failed."` error, not a `"No content returned"` error. -/
theorem v1_empty_text_generic_error :
    callGeminiAPI_v1 ⟨true, true, 200, none, some ""⟩ =
      .error "Gemini API call failed." ∧
    ("Gemini API call failed." : String) ≠
      "Gemini API call failed: No content returned." :=
  ⟨rfl, by decide⟩
